import Mathlib

/-!
Shallow embedding of the data-translation layer of
`object_detection/object_detection.py` (the RetinaNet d3m primitive):
the annotation-building pipeline of `set_training_data` (lines 186-196)
and the prediction-assembly pipeline of `produce` (lines 566-658).

The neural network itself is opaque to that layer; in `produce` it is
modelled as an oracle `detector : PyStr → List Detection` giving, for each
image path, the scale-corrected `(box, score)` pairs of lines 594-597, in
the order the network emits them (descending score).
-/

deriving instance DecidableEq for Except

namespace ObjDet

/-- Python strings are modelled as lists of characters. -/
abbrev PyStr := List Char

/-- Python `s.split(sep)` for a one-character separator: `"".split(",") = [""]`,
`"a,b".split(",") = ["a", "b"]`, `",".split(",") = ["", ""]`. -/
def pySplit (c : Char) : List Char → List (List Char)
  | [] => [[]]
  | x :: xs =>
    if x = c then [] :: pySplit c xs
    else
      match pySplit c xs with
      | t :: ts => (x :: t) :: ts
      | [] => [[x]]

/-- Python `sep.join(parts)` for a one-character separator. -/
def pyJoin (c : Char) : List PyStr → PyStr
  | [] => []
  | [t] => t
  | t :: ts => t ++ c :: pyJoin c ts

/-- Python `os.path.basename`: the suffix after the last slash. -/
def pyBasename (s : PyStr) : PyStr :=
  (s.reverse.takeWhile (fun ch => ch ≠ '/')).reverse

/-- Python `os.path.join` for two components (line 182 / 572). -/
def pyPathJoin (b f : PyStr) : PyStr :=
  if f.head? = some '/' then f
  else if b = [] then f
  else if b.getLast? = some '/' then b ++ f
  else b ++ '/' :: f

/-- Python string repetition `s * n` (line 606 computes `i * len(b)`). -/
def pyRepeatStr (s : PyStr) : Nat → PyStr
  | 0 => []
  | n + 1 => s ++ pyRepeatStr s n

/-- Fuelled helper for `pyUnique`; the fuel is the length of the list, which
always suffices because each step consumes at least one element. -/
def pyUniqueAux {α : Type} [DecidableEq α] : Nat → List α → List α
  | 0, _ => []
  | _, [] => []
  | fuel + 1, x :: xs => x :: pyUniqueAux fuel (xs.filter (fun y => y ≠ x))

/-- First-occurrence deduplication, what the comprehension
`[x for i, x in enumerate(lst) if lst.index(x) == i]` on line 580 computes. -/
def pyUnique {α : Type} [DecidableEq α] (l : List α) : List α :=
  pyUniqueAux l.length l

/-- One decimal digit character. -/
def digitChar : Nat → Char
  | 0 => '0'
  | 1 => '1'
  | 2 => '2'
  | 3 => '3'
  | 4 => '4'
  | 5 => '5'
  | 6 => '6'
  | 7 => '7'
  | 8 => '8'
  | _ => '9'

/-- Fuelled little-endian digit rendering of a natural number. -/
def natToStrAux : Nat → Nat → List Char
  | 0, _ => []
  | fuel + 1, n =>
    if n < 10 then [digitChar n]
    else digitChar (n % 10) :: natToStrAux fuel (n / 10)

/-- Decimal rendering of a natural number, Python `str`. -/
def natToStr (n : Nat) : PyStr := (natToStrAux (n + 1) n).reverse

/-- Decimal rendering of an integer, Python `str`. -/
def intToStr (n : Int) : PyStr :=
  if n < 0 then '-' :: natToStr n.natAbs else natToStr n.natAbs

/-- Truncation toward zero: numpy `astype(int)` on a real value modelled as a
rational (`Int.tdiv` is T-division). -/
def ratTrunc (q : ℚ) : Int := q.num.tdiv (q.den : Int)

/-- Runtime errors of the Python fragments we embed. `malformedBoundingBox`
stands for the `MalformedBoundingBoxError` the specification names; the source
defines no such error, and the embedding shows it is never produced. -/
inductive PyErr where
  | nameError
  | typeError
  | valueError
  | indexError
  | malformedBoundingBox
  deriving DecidableEq, Repr

/-- One scale-corrected detection of the network for one image: the box
`[x1, y1, x2, y2]` (line 594/597) and its confidence score. -/
structure Detection where
  b0 : ℚ
  b1 : ℚ
  b2 : ℚ
  b3 : ℚ
  score : ℚ
  deriving DecidableEq

/-- A four-corner integer box `(x1, y1, x2, y2)` after `astype(int)` (line 603). -/
structure Box4 where
  c0 : Int
  c1 : Int
  c2 : Int
  c3 : Int
  deriving DecidableEq

/-- Line 603: `b = box.astype(int)`, truncation toward zero per coordinate. -/
def truncBox (d : Detection) : Box4 :=
  ⟨ratTrunc d.b0, ratTrunc d.b1, ratTrunc d.b2, ratTrunc d.b3⟩

/-- Line 612: `x ↦ [x[0], x[1], x[0], x[3], x[2], x[3], x[2], x[1]]`, the
8-coordinate polygon ordering. -/
def to8 (b : Box4) : List Int :=
  [b.c0, b.c1, b.c0, b.c3, b.c2, b.c3, b.c2, b.c1]

/-- Lines 611-613: render a box as the comma-joined 8-coordinate string. -/
def serializeBox (b : Box4) : PyStr := pyJoin ',' ((to8 b).map intToStr)

/-- The score threshold 0.5 of line 600. -/
def scoreThreshold : ℚ := mkRat 1 2

/-- Lines 599-606: keep the detections of one image until the first score
below 0.5 (the loop breaks there). -/
def acceptDetections : List Detection → List Detection
  | [] => []
  | d :: ds => if d.score < scoreThreshold then [] else d :: acceptDetections ds

/-- One input-table row: the `d3mIndex` value and the image filename cell. -/
structure InRow where
  d3mIndex : Int
  filename : PyStr
  deriving DecidableEq

/-- One row of the result table of `produce` (line 642). -/
structure OutRow where
  d3mIndex : Int
  bounding_box : PyStr
  confidence : ℚ
  deriving DecidableEq

/-- Python dict insertion: an existing key is updated in place, a new key is
appended (insertion order preserved). -/
def dictInsert (m : List (PyStr × List Int)) (k : PyStr) (v : List Int) :
    List (PyStr × List Int) :=
  if m.any (fun kv => decide (kv.1 = k)) then
    m.map (fun kv => if kv.1 = k then (k, v) else kv)
  else m ++ [(k, v)]

/-- Line 625: `input_df.set_index('image').T.to_dict('list')` builds a dict
keyed by image basename; each value is the one-element list `[d3mIndex]`, and
a repeated basename silently overwrites the stored value (last row wins). -/
def dictBuild (ps : List (PyStr × List Int)) : List (PyStr × List Int) :=
  ps.foldl (fun m kv => dictInsert m kv.1 kv.2) []

/-- Python `dict.get`: `none` when the key is absent. -/
def dictGet (m : List (PyStr × List Int)) (k : PyStr) : Option (List Int) :=
  (m.find? (fun kv => decide (kv.1 = k))).map (fun kv => kv.2)

/-- Line 630: `[item for sublist in d3mIdx for item in sublist]`; a `None`
entry is not iterable (Python `TypeError`). -/
def flattenOpt : List (Option (List Int)) → Except PyErr (List Int)
  | [] => .ok []
  | none :: _ => .error .typeError
  | some xs :: rest => (flattenOpt rest).map (fun ys => xs ++ ys)

/-- Lines 570-573: resolve each row's image path against the base directory. -/
def imagePathsOf (baseDir : PyStr) (rows : List InRow) : List PyStr :=
  rows.map (fun r => pyPathJoin baseDir r.filename)

/-- Lines 587-613, the `box_list` accumulation: for each distinct image, the
serialized 8-coordinate strings of its accepted detections. -/
def realBoxStrings (imageList : List PyStr) (detector : PyStr → List Detection) :
    List PyStr :=
  (imageList.map
    (fun p => (acceptDetections (detector p)).map (fun d => serializeBox (truncBox d)))).flatten

/-- Lines 587-605, the `score_list` accumulation. -/
def realScores (imageList : List PyStr) (detector : PyStr → List Detection) :
    List ℚ :=
  (imageList.map (fun p => (acceptDetections (detector p)).map (fun d => d.score))).flatten

/-- Line 606 appends `i * len(b)` (the path repeated `len(b) = 4` times, a string
repetition, not a list); line 615 then maps `os.path.basename` over the list. -/
def realNames (imageList : List PyStr) (detector : PyStr → List Detection) :
    List PyStr :=
  ((imageList.map
    (fun p => (acceptDetections (detector p)).map (fun _ => pyRepeatStr p 4))).flatten).map
    pyBasename

/-- Lines 618-625: the basename → `[d3mIndex]` dict of `produce`, built by
`input_df.set_index('image').T.to_dict('list')`. Each basename key stores the
one-element list holding its row's `d3mIndex`; a repeated basename keeps only
the last row's value (dict insertion overwrites). -/
def produceMapping (baseDir : PyStr) (rows : List InRow) : List (PyStr × List Int) :=
  dictBuild (rows.map (fun r => (pyBasename (pyPathJoin baseDir r.filename), [r.d3mIndex])))

/-- Lines 566-658 of `produce`, for a table with one FileName column.
`detector` is the network oracle (scale-corrected boxes with scores, line 597).
The steps, in source order: distinct image paths (line 580), per-image
detection filtering and accumulation (587-606), box serialization (611-613),
basenames (615), the basename → `[d3mIndex]` dict (618-625), lookups and the
missing-image list (628-629), flattening of the lookups (630, `TypeError` on a
failed lookup), the `results` frame (642-646, `ValueError` on unequal column
lengths), then — if any image got no prediction — the call
`_fill_empty_predictions(...)` on line 654, which raises `NameError` (the
function is called without `self.` and its body reads a local of `produce`).
Line 658 builds the returned frame from `results`, so even the intended
placeholder rows would be dropped. -/
def produce (baseDir : PyStr) (rows : List InRow) (detector : PyStr → List Detection) :
    Except PyErr (List OutRow) :=
  let paths := imagePathsOf baseDir rows
  let imageList := pyUnique paths
  let boxStrs := realBoxStrings imageList detector
  let scores := realScores imageList detector
  let names := realNames imageList detector
  let mapping := produceMapping baseDir rows
  let d3mIdxOpt := names.map (dictGet mapping)
  let emptyNames :=
    (mapping.filter (fun kv => decide (¬ some kv.2 ∈ d3mIdxOpt))).map (fun kv => kv.1)
  match flattenOpt d3mIdxOpt with
  | .error e => .error e
  | .ok idxs =>
    if idxs.length = boxStrs.length ∧ boxStrs.length = scores.length then
      if emptyNames = [] then
        .ok ((idxs.zip (boxStrs.zip scores)).map (fun t => ⟨t.1, t.2.1, t.2.2⟩))
      else .error .nameError
    else .error .valueError

/-- One annotation row of the `x1, y1, x2, y2` columns assembled by
`set_training_data`; a missing value (pandas `None` padding) is `none`. -/
structure Corners where
  x1 : Option PyStr
  y1 : Option PyStr
  x2 : Option PyStr
  y2 : Option PyStr
  deriving DecidableEq

/-- Lines 186-189 of `set_training_data`, the bounding-coordinate pipeline:
split each `bounding_box` cell on commas (`str.split(',', expand=True)` pads
rows shorter than the widest with missing values), positionally drop columns
2, 5, 6 and 7 (an `IndexError` when there are fewer than 8 columns), rename the
4 kept columns (a `ValueError` when more than 4 remain), and read the corners
as `x1` = token 0, `y1` = token 1, `x2` = token 4, `y2` = token 3. -/
def setTrainingBoxes (cells : List PyStr) : Except PyErr (List Corners) :=
  if ((cells.map (pySplit ',')).map List.length).foldr max 0 < 8 then .error .indexError
  else if 8 < ((cells.map (pySplit ',')).map List.length).foldr max 0 then .error .valueError
  else .ok ((cells.map (pySplit ',')).map (fun ts => ⟨ts[0]?, ts[1]?, ts[4]?, ts[3]?⟩))

/-- Formalisation of claim C2's wording, for comparison with the source: the
corners read as positions 0, 1 for `x1`/`y1` and positions 4 and 5 for
`x2`/`y2`, discarding the other four positions. -/
def setTrainingBoxesSpecC2 (cells : List PyStr) : Except PyErr (List Corners) :=
  if ((cells.map (pySplit ',')).map List.length).foldr max 0 < 8 then .error .indexError
  else if 8 < ((cells.map (pySplit ',')).map List.length).foldr max 0 then .error .valueError
  else .ok ((cells.map (pySplit ',')).map (fun ts => ⟨ts[0]?, ts[1]?, ts[4]?, ts[5]?⟩))

/-- The lines 612-613 formatter applied to the four extracted corner values
`(x1, y1, x2, y2)`; the values are already strings, on which Python `str` is
the identity. -/
def serializeTok (a b c d : PyStr) : PyStr := pyJoin ',' [a, b, a, d, c, d, c, b]

/-- Number of distinct `d3mIndex` values of an input table. -/
def distinctIdCount (rows : List InRow) : Nat :=
  (pyUnique (rows.map (fun r => r.d3mIndex))).length

/-! ### Concrete inputs used by the counterexamples and witnesses -/

/-- A base directory used by the concrete scenarios. -/
def exBase : PyStr := "/d".toList

/-- One-row input table: row 1 pointing at image `a.jpg`. -/
def oneRow : List InRow := [⟨1, "a.jpg".toList⟩]

/-- Detector returning two above-threshold detections for `a.jpg` (0.9, 0.8). -/
def twoDetDetector : PyStr → List Detection := fun p =>
  if p = "/d/a.jpg".toList then
    [⟨1, 2, 3, 4, mkRat 9 10⟩, ⟨5, 6, 7, 8, mkRat 8 10⟩]
  else []

/-- Detector returning a single 0.9 detection for `a.jpg` and nothing else. -/
def oneDetDetector : PyStr → List Detection := fun p =>
  if p = "/d/a.jpg".toList then [⟨1, 2, 3, 4, mkRat 9 10⟩] else []

/-- The result rows of `produce exBase oneRow twoDetDetector`. -/
def twoDetOut : List OutRow :=
  [⟨1, "1,2,1,4,3,4,3,2".toList, mkRat 9 10⟩, ⟨1, "5,6,5,8,7,8,7,6".toList, mkRat 8 10⟩]

/-- The result rows of `produce exBase oneRow oneDetDetector`. -/
def oneDetOut : List OutRow := [⟨1, "1,2,1,4,3,4,3,2".toList, mkRat 9 10⟩]

/-- The spec's scenario table: row 1 at `a.jpg`, row 2 at `b.jpg`. -/
def twoRowTable : List InRow := [⟨1, "a.jpg".toList⟩, ⟨2, "b.jpg".toList⟩]

/-- Duplicate-basename table: rows 1 and 2 point at `a.jpg` files in two
different directories. -/
def dupBasenameRows : List InRow := [⟨1, "x/a.jpg".toList⟩, ⟨2, "y/a.jpg".toList⟩]

/-- Detector giving one 0.9 detection to each of the two duplicate-basename
images. -/
def dupBasenameDetector : PyStr → List Detection := fun p =>
  if p = "/d/x/a.jpg".toList then [⟨1, 2, 3, 4, mkRat 9 10⟩]
  else if p = "/d/y/a.jpg".toList then [⟨5, 6, 7, 8, mkRat 9 10⟩]
  else []

/-- A detection list sorted by descending score with scores exactly 0.5 and
0.4999, for the threshold-boundary scenario. -/
def boundaryDetections : List Detection :=
  [⟨1, 2, 3, 4, mkRat 1 2⟩, ⟨5, 6, 7, 8, mkRat 4999 10000⟩]

/-- An 8-token bounding-box cell with pairwise-distinct tokens. -/
def eightTokenCell : PyStr := "10,11,12,13,14,15,16,17".toList

/-- A bounding-box cell with only two comma-separated tokens. -/
def twoTokenCell : PyStr := "1,2".toList

/-! ### String lemmas: splitting is a left inverse of joining -/

theorem digitChar_ne_comma (d : Nat) : digitChar d ≠ ',' := by
  unfold digitChar
  split <;> decide

theorem natToStrAux_chars (fuel : Nat) :
    ∀ (n : Nat), ∀ c ∈ natToStrAux fuel n, ∃ d, c = digitChar d := by
  induction fuel with
  | zero => intro n c hc; simp [natToStrAux] at hc
  | succ fuel ih =>
    intro n c hc
    rw [natToStrAux] at hc
    by_cases h : n < 10
    · rw [if_pos h] at hc
      simp only [List.mem_singleton] at hc
      exact ⟨n, hc⟩
    · rw [if_neg h] at hc
      rcases List.mem_cons.1 hc with hc | hc
      · exact ⟨n % 10, hc⟩
      · exact ih (n / 10) c hc

theorem comma_not_mem_natToStr (n : Nat) : ',' ∉ natToStr n := by
  intro h
  rw [natToStr, List.mem_reverse] at h
  obtain ⟨d, hd⟩ := natToStrAux_chars (n + 1) n ',' h
  exact digitChar_ne_comma d hd.symm

theorem comma_not_mem_intToStr (n : Int) : ',' ∉ intToStr n := by
  unfold intToStr
  split
  · intro h
    rcases List.mem_cons.1 h with h | h
    · exact absurd h (by decide)
    · exact comma_not_mem_natToStr n.natAbs h
  · exact comma_not_mem_natToStr n.natAbs

theorem pySplit_of_not_mem {c : Char} : ∀ {t : PyStr}, c ∉ t → pySplit c t = [t]
  | [], _ => rfl
  | x :: xs, h => by
    have hx : ¬ x = c := fun hx => h (hx ▸ List.mem_cons_self x xs)
    have ih := pySplit_of_not_mem (fun hc => h (List.mem_cons_of_mem x hc))
    rw [pySplit, if_neg hx, ih]

theorem pySplit_append {c : Char} : ∀ {t : PyStr} (r : PyStr), c ∉ t →
    pySplit c (t ++ c :: r) = t :: pySplit c r
  | [], r, _ => by simp [pySplit]
  | x :: xs, r, h => by
    have hx : ¬ x = c := fun hx => h (hx ▸ List.mem_cons_self x xs)
    have ih := pySplit_append (t := xs) r (fun hc => h (List.mem_cons_of_mem x hc))
    rw [List.cons_append, pySplit, if_neg hx, ih]

theorem pySplit_pyJoin (c : Char) : ∀ (ts : List PyStr), ts ≠ [] →
    (∀ t ∈ ts, c ∉ t) → pySplit c (pyJoin c ts) = ts
  | [], h, _ => absurd rfl h
  | [t], _, hall => by
    rw [pyJoin, pySplit_of_not_mem (hall t (List.mem_singleton.2 rfl))]
  | t :: t2 :: rest, _, hall => by
    rw [pyJoin, pySplit_append _ (hall t (List.mem_cons_self t _)),
      pySplit_pyJoin c (t2 :: rest) (List.cons_ne_nil t2 rest)
        (fun u hu => hall u (List.mem_cons_of_mem t hu))]
    exact fun h => List.noConfusion h

theorem pySplit_serializeBox (b : Box4) :
    pySplit ',' (serializeBox b) = (to8 b).map intToStr := by
  rw [serializeBox]
  refine pySplit_pyJoin ',' _ (by simp [to8]) ?_
  intro t ht
  rcases List.mem_map.1 ht with ⟨n, _, rfl⟩
  exact comma_not_mem_intToStr n

theorem foldr_max_of_all_eight : ∀ (l : List Nat), l ≠ [] → (∀ n ∈ l, n = 8) →
    l.foldr max 0 = 8
  | [a], _, h => by simp [h a (List.mem_singleton.2 rfl)]
  | a :: b :: t, _, h => by
    rw [List.foldr_cons,
      foldr_max_of_all_eight (b :: t) (List.cons_ne_nil b t)
        (fun n hn => h n (List.mem_cons_of_mem a hn)),
      h a (List.mem_cons_self a _)]
    exact max_self 8

/-! ### The claims -/

/-- Claim C1, counterexample: on a one-row table whose single image receives
two above-threshold detections, `produce` returns two output rows while the
table has one distinct row identifier, so the output row count does not equal
the number of distinct identifiers. -/
theorem produce_c1_counterexample :
    (produce exBase oneRow twoDetDetector).map List.length = .ok 2 ∧
    distinctIdCount oneRow = 1 ∧
    (produce exBase oneRow twoDetDetector).map List.length ≠
      .ok (distinctIdCount oneRow) := by
  decide

/-- Claim C1, amended: whenever `produce` returns an output table, its row
count equals the total number of above-threshold detections over the distinct
images — not the number of distinct row identifiers; and when some image gets
no qualifying detection, `produce` raises instead of emitting placeholders. -/
theorem produce_row_count_eq_accepted_detections (baseDir : PyStr) (rows : List InRow)
    (detector : PyStr → List Detection) (out : List OutRow)
    (h : produce baseDir rows detector = .ok out) :
    out.length =
      ((pyUnique (imagePathsOf baseDir rows)).map
        (fun p => (acceptDetections (detector p)).length)).sum := by
  simp only [produce] at h
  split at h
  · exact absurd h (by simp)
  next idxs hflat =>
    split at h
    next hlen =>
      split at h
      next hempty =>
        rw [Except.ok.injEq] at h
        subst h
        obtain ⟨hlen1, hlen2⟩ := hlen
        have hsum : (realBoxStrings (pyUnique (imagePathsOf baseDir rows)) detector).length =
            ((pyUnique (imagePathsOf baseDir rows)).map
              (fun p => (acceptDetections (detector p)).length)).sum := by
          rw [realBoxStrings, List.length_flatten, List.map_map]
          simp [Function.comp_def]
        rw [List.length_map, List.length_zip, List.length_zip, ← hsum]
        omega
      · exact absurd h (by simp)
    · exact absurd h (by simp)

/-- Claim C1, witness: on the two-detection scenario `produce` succeeds and the
amended row-count equation holds (2 rows for 2 accepted detections). -/
theorem produce_row_count_eq_accepted_detections_instance :
    twoDetOut.length =
      ((pyUnique (imagePathsOf exBase oneRow)).map
        (fun p => (acceptDetections (twoDetDetector p)).length)).sum :=
  produce_row_count_eq_accepted_detections exBase oneRow twoDetDetector twoDetOut (by decide)

/-- Claim C2, counterexample: on an 8-token cell with pairwise-distinct tokens
the code reads `y2` from position 3, not position 5 as the claim states, so the
built box differs from the claimed position selection. -/
theorem set_training_boxes_c2_counterexample :
    setTrainingBoxes [eightTokenCell] =
      .ok [⟨some ("10".toList), some ("11".toList), some ("14".toList), some ("13".toList)⟩] ∧
    setTrainingBoxesSpecC2 [eightTokenCell] =
      .ok [⟨some ("10".toList), some ("11".toList), some ("14".toList), some ("15".toList)⟩] ∧
    setTrainingBoxes [eightTokenCell] ≠ setTrainingBoxesSpecC2 [eightTokenCell] := by
  decide

/-- Claim C2, amended: for a non-empty batch whose bounding-box cells all split
into exactly 8 comma-separated tokens, `set_training_data` builds each
annotation box from positions 0 and 1 (`x1`/`y1`), position 4 (`x2`) and
position 3 (`y2`), discarding positions 2, 5, 6 and 7. -/
theorem set_training_boxes_corner_positions (cells : List PyStr) (h0 : cells ≠ [])
    (h8 : ∀ s ∈ cells, (pySplit ',' s).length = 8) :
    setTrainingBoxes cells =
      .ok (cells.map (fun s =>
        ⟨(pySplit ',' s)[0]?, (pySplit ',' s)[1]?, (pySplit ',' s)[4]?, (pySplit ',' s)[3]?⟩)) := by
  have hw : ((cells.map (pySplit ',')).map List.length).foldr max 0 = 8 := by
    apply foldr_max_of_all_eight
    · simp [h0]
    · intro n hn
      rcases List.mem_map.1 hn with ⟨ts, hts, rfl⟩
      rcases List.mem_map.1 hts with ⟨s, hs, rfl⟩
      exact h8 s hs
  unfold setTrainingBoxes
  rw [hw]
  norm_num

/-- Claim C2, witness: the amended position selection evaluated on a concrete
8-token cell. -/
theorem set_training_boxes_corner_positions_instance :
    setTrainingBoxes [eightTokenCell] =
      .ok ([eightTokenCell].map (fun s =>
        ⟨(pySplit ',' s)[0]?, (pySplit ',' s)[1]?, (pySplit ',' s)[4]?, (pySplit ',' s)[3]?⟩)) :=
  set_training_boxes_corner_positions [eightTokenCell] (by decide) (by decide)

/-- Claim C3: on a one-row table whose image receives no detection, `produce`
does not return a placeholder row; it raises (`_fill_empty_predictions` is
called as an undefined bare name on line 654, and line 658 would rebuild the
output from `results` without the placeholders anyway). -/
theorem produce_no_placeholder_rows_bug :
    produce exBase oneRow (fun _ => []) = .error .nameError := by
  decide

/-- Claim C4: with two rows whose images share the basename `a.jpg`, the
basename dict of `produce` keeps only the last row identifier (2), and the
output contains identifier 2 twice and identifier 1 never — both halves of
the claim fail. -/
theorem produce_duplicate_basename_bug :
    produceMapping exBase dupBasenameRows = [("a.jpg".toList, [2])] ∧
    produce exBase dupBasenameRows dupBasenameDetector =
      .ok [⟨2, "1,2,1,4,3,4,3,2".toList, mkRat 9 10⟩,
           ⟨2, "5,6,5,8,7,8,7,6".toList, mkRat 9 10⟩] := by
  decide

/-- Claim C5: the per-image filter of `produce` keeps the prefix of detections
whose score is at least 0.5 (a score of exactly 0.5 is accepted, 0.4999 is
rejected), stopping at the first below-threshold score; on a list sorted by
descending score this coincides with filtering by the threshold. -/
theorem accept_detections_threshold (ds : List Detection) :
    acceptDetections ds = ds.takeWhile (fun d => decide (scoreThreshold ≤ d.score)) ∧
    (ds.Pairwise (fun a b => b.score ≤ a.score) →
      acceptDetections ds = ds.filter (fun d => decide (scoreThreshold ≤ d.score))) := by
  induction ds with
  | nil => exact ⟨rfl, fun _ => rfl⟩
  | cons d ds ih =>
    constructor
    · rw [acceptDetections, List.takeWhile_cons]
      by_cases h : d.score < scoreThreshold
      · rw [if_pos h]
        simp [not_le.2 h]
      · rw [if_neg h]
        simp [not_lt.1 h, ih.1]
    · intro hp
      rw [List.pairwise_cons] at hp
      rw [acceptDetections, List.filter_cons]
      by_cases h : d.score < scoreThreshold
      · rw [if_pos h]
        have hall : ds.filter (fun d => decide (scoreThreshold ≤ d.score)) = [] :=
          List.filter_eq_nil_iff.2
            (fun x hx => by simp [not_le.2 (lt_of_le_of_lt (hp.1 x hx) h)])
        simp [not_le.2 h, hall]
      · rw [if_neg h]
        simp [not_lt.1 h, ih.2 hp.2]

/-- Claim C5, witness: on the descending list with scores 0.5 and 0.4999 the
filter keeps exactly the 0.5 detection. -/
theorem accept_detections_threshold_instance :
    acceptDetections boundaryDetections = [⟨1, 2, 3, 4, mkRat 1 2⟩] ∧
    acceptDetections boundaryDetections =
      boundaryDetections.filter (fun d => decide (scoreThreshold ≤ d.score)) := by
  refine ⟨by decide, (accept_detections_threshold boundaryDetections).2 ?_⟩
  decide

/-- Claim C6: decoding an 8-coordinate string produced by the output formatter
via the annotation builder's extraction recovers the four corner renderings,
and re-encoding them through the formatter reproduces the original string. -/
theorem decode_encode_roundtrip (b : Box4) :
    setTrainingBoxes [serializeBox b] =
      .ok [⟨some (intToStr b.c0), some (intToStr b.c1),
            some (intToStr b.c2), some (intToStr b.c3)⟩] ∧
    serializeTok (intToStr b.c0) (intToStr b.c1) (intToStr b.c2) (intToStr b.c3) =
      serializeBox b := by
  constructor
  · unfold setTrainingBoxes
    simp only [List.map_cons, List.map_nil, pySplit_serializeBox]
    norm_num [to8]
  · simp [serializeTok, serializeBox, to8]

/-- Claim C7: on the spec's two-row scenario (one 0.9 detection for `a.jpg`,
none for `b.jpg`), `produce` does not return the sorted real-plus-placeholder
table the claim describes; it raises a `NameError` in the placeholder path. -/
theorem produce_concat_sort_bug :
    produce exBase twoRowTable oneDetDetector = .error .nameError := by
  decide

/-- Claim C8: the output formatter serializes a 4-corner box `(x1, y1, x2, y2)`
into the 8-coordinate string in the order
`x1, y1, x1, y2, x2, y2, x2, y1`. -/
theorem serialize_corner_ordering (x1 y1 x2 y2 : Int) :
    pySplit ',' (serializeBox ⟨x1, y1, x2, y2⟩) =
      [intToStr x1, intToStr y1, intToStr x1, intToStr y2,
       intToStr x2, intToStr y2, intToStr x2, intToStr y1] := by
  rw [pySplit_serializeBox]
  rfl

/-- Claim C9, counterexample: a cell with two tokens makes `set_training_data`
fail with an `IndexError` (positional column selection), not a
`MalformedBoundingBoxError`; and a malformed cell alongside an 8-token cell is
silently padded with missing values instead of being surfaced. -/
theorem set_training_boxes_c9_counterexample :
    setTrainingBoxes [twoTokenCell] = .error .indexError ∧
    setTrainingBoxes [twoTokenCell] ≠ .error .malformedBoundingBox ∧
    setTrainingBoxes ["0,1,2,3,4,5,6,7".toList, "banana".toList] =
      .ok [⟨some ("0".toList), some ("1".toList), some ("4".toList), some ("3".toList)⟩,
           ⟨some ("banana".toList), none, none, none⟩] := by
  decide

/-- Claim C9, amended: `set_training_data` never raises a
`MalformedBoundingBoxError` (no such error exists in the code); when every
cell splits into fewer than 8 tokens it raises an `IndexError` instead, and a
short cell alongside an 8-token cell is silently padded, not surfaced. -/
theorem set_training_boxes_error_behavior (cells : List PyStr) :
    setTrainingBoxes cells ≠ .error .malformedBoundingBox ∧
    (((cells.map (pySplit ',')).map List.length).foldr max 0 < 8 →
      setTrainingBoxes cells = .error .indexError) := by
  constructor
  · unfold setTrainingBoxes
    split
    · simp
    · split
      · simp
      · simp
  · intro hlt
    unfold setTrainingBoxes
    rw [if_pos hlt]

/-- Claim C9, witness: the amended behavior on the two-token cell. -/
theorem set_training_boxes_error_behavior_instance :
    setTrainingBoxes [twoTokenCell] ≠ .error .malformedBoundingBox ∧
    setTrainingBoxes [twoTokenCell] = .error .indexError :=
  ⟨(set_training_boxes_error_behavior [twoTokenCell]).1,
   (set_training_boxes_error_behavior [twoTokenCell]).2 (by decide)⟩

/-- Claim C10: whenever `produce` returns a table, every comma-separated token
of every row's bounding-box string is the decimal rendering of an integer (the
detector's rational coordinates are truncated by `astype(int)` before
serialization). -/
theorem produce_tokens_are_integers (baseDir : PyStr) (rows : List InRow)
    (detector : PyStr → List Detection) (out : List OutRow)
    (h : produce baseDir rows detector = .ok out) :
    ∀ r ∈ out, ∀ t ∈ pySplit ',' r.bounding_box, ∃ n : Int, t = intToStr n := by
  simp only [produce] at h
  split at h
  · exact absurd h (by simp)
  next idxs hflat =>
    split at h
    next hlen =>
      split at h
      next hempty =>
        rw [Except.ok.injEq] at h
        subst h
        intro r hr t ht
        rcases List.mem_map.1 hr with ⟨trip, htrip, rfl⟩
        obtain ⟨i, bb, s⟩ := trip
        have hbb : bb ∈ realBoxStrings (pyUnique (imagePathsOf baseDir rows)) detector :=
          (List.of_mem_zip (List.of_mem_zip htrip).2).1
        rw [realBoxStrings] at hbb
        rcases List.mem_flatten.1 hbb with ⟨l, hl, hbl⟩
        rcases List.mem_map.1 hl with ⟨p, _, rfl⟩
        rcases List.mem_map.1 hbl with ⟨d, _, rfl⟩
        rw [pySplit_serializeBox] at ht
        rcases List.mem_map.1 ht with ⟨n, _, rfl⟩
        exact ⟨n, rfl⟩
      · exact absurd h (by simp)
    · exact absurd h (by simp)

/-- Claim C10, witness: a token of the concrete one-detection output is the
rendering of an integer. -/
theorem produce_tokens_are_integers_instance :
    ∃ n : Int, "1".toList = intToStr n :=
  produce_tokens_are_integers exBase oneRow oneDetDetector oneDetOut (by decide)
    ⟨1, "1,2,1,4,3,4,3,2".toList, mkRat 9 10⟩ (by decide) ("1".toList) (by decide)

end ObjDet
